import Mathlib

/-!
# Verification of the gloss-translation repository spec

Shallow embedding of the repository's three source artifacts:

* the Prisma relational schema (`schema.prisma`): enums, row types,
  declared primary keys and referential actions, and the persistence-layer
  semantics they induce (primary-key insert rejection, user-deletion
  referential behavior);
* the typed REST client (`packages/api-client/src/auth.ts`, containing the
  `Auth` and `Languages` classes): each method is embedded as a pure
  function from its arguments to the list of HTTP requests it performs;
* the login view (`packages/web/src/features/users/LoginView.tsx`): the
  `onSubmit` handler is embedded as a function from the login call's
  outcome to the list of observable effects.
-/

namespace GlossTranslation

/-! ## Schema enums (from schema.prisma) -/

/-- Prisma enum EmailStatus. -/
inductive EmailStatus
  | UNVERIFIED
  | VERIFIED
  | BOUNCED
  | COMPLAINED
deriving DecidableEq

/-- Prisma enum SystemRole. -/
inductive SystemRole
  | ADMIN
deriving DecidableEq

/-- Prisma enum LanguageRole. -/
inductive LanguageRole
  | ADMIN
  | TRANSLATOR
  | VIEWER
deriving DecidableEq

/-- Prisma enum GlossState. -/
inductive GlossState
  | APPROVED
  | UNAPPROVED
deriving DecidableEq

/-- Prisma enum GlossSource. -/
inductive GlossSource
  | USER
  | IMPORT
deriving DecidableEq

/-- Prisma enum TextDirection. -/
inductive TextDirection
  | ltr
  | rtl
deriving DecidableEq

/-! ## Schema row types

Each Prisma model becomes a structure holding its scalar columns.
Relation fields are represented by their foreign-key scalar columns, as in
the generated SQL. `DateTime` and `BigInt` columns are embedded as `Int`
timestamps; nullable columns as `Option`. -/

/-- Prisma model AuthUser (mapped to table "User"). -/
structure AuthUser where
  id : String
  name : Option String
  emailStatus : EmailStatus
deriving DecidableEq

/-- Prisma model AuthSession (mapped to table "Session"). The `auth_user`
relation declares `onDelete: Cascade`. -/
structure AuthSession where
  id : String
  user_id : String
  active_expires : Int
  idle_expires : Int
deriving DecidableEq

/-- Prisma model AuthKey (mapped to table "UserAuthentication"). The
`auth_user` relation declares `onDelete: Cascade`. -/
structure AuthKey where
  id : String
  hashed_password : Option String
  user_id : String
  primary_key : Bool
  expires : Option Int
deriving DecidableEq

/-- Prisma model UserEmailVerification. The `user` relation declares
`onDelete: Cascade`. -/
structure UserEmailVerification where
  userId : String
  email : String
  token : String
  expires : Int
deriving DecidableEq

/-- Prisma model UserSystemRole, with composite id `[userId, role]`. The
`user` relation declares `onDelete: Cascade`. -/
structure UserSystemRole where
  userId : String
  role : SystemRole
deriving DecidableEq

/-- Prisma model Language. -/
structure Language where
  id : String
  code : String
  name : String
  font : String
  textDirection : TextDirection
  bibleTranslationIds : List String
deriving DecidableEq

/-- Prisma model LanguageImportJob, whose primary key is the single column
`languageId` (`@id` on `languageId`). The `user` relation is optional and
declares no `onDelete` action. -/
structure LanguageImportJob where
  languageId : String
  userId : Option String
  startDate : Int
  endDate : Option Int
  succeeded : Option Bool
deriving DecidableEq

/-- Prisma model LanguageMemberRole, with composite id
`[languageId, userId, role]`. The `user` relation is required and declares
no `onDelete` action. -/
structure LanguageMemberRole where
  userId : String
  languageId : String
  role : LanguageRole
deriving DecidableEq

/-- Prisma model Gloss, with composite id `[wordId, languageId]`; the
`gloss` text column is nullable and `state` defaults to UNAPPROVED. -/
structure Gloss where
  wordId : String
  languageId : String
  gloss : Option String
  state : GlossState
deriving DecidableEq

/-- Prisma model GlossHistoryEntry, with composite id
`[wordId, languageId, timestamp]`. The `user` relation is optional and
declares no `onDelete` action. -/
structure GlossHistoryEntry where
  wordId : String
  languageId : String
  timestamp : Int
  userId : Option String
  gloss : Option String
  state : Option GlossState
  source : GlossSource
deriving DecidableEq

/-- Prisma model MachineGloss, with composite id `[wordId, languageId]`. -/
structure MachineGloss where
  wordId : String
  languageId : String
  gloss : Option String
deriving DecidableEq

/-- Prisma model TranslatorNote, with composite id `[wordId, languageId]`.
The `author` relation is required and declares no `onDelete` action. -/
structure TranslatorNote where
  wordId : String
  languageId : String
  authorId : String
  timestamp : Int
  content : String
deriving DecidableEq

/-- Prisma model Footnote, with composite id `[wordId, languageId]`. The
`author` relation is required and declares no `onDelete` action. -/
structure Footnote where
  wordId : String
  languageId : String
  authorId : String
  timestamp : Int
  content : String
deriving DecidableEq

/-! ## Declared primary keys (the `@id` / `@@id` attributes) -/

/-- Gloss declares `@@id([wordId, languageId])`. -/
def Gloss.primaryKey : List String := ["wordId", "languageId"]

/-- MachineGloss declares `@@id([wordId, languageId])`. -/
def MachineGloss.primaryKey : List String := ["wordId", "languageId"]

/-- TranslatorNote declares `@@id([wordId, languageId])`. -/
def TranslatorNote.primaryKey : List String := ["wordId", "languageId"]

/-- Footnote declares `@@id([wordId, languageId])`. -/
def Footnote.primaryKey : List String := ["wordId", "languageId"]

/-- LanguageImportJob declares `@id` on `languageId`. -/
def LanguageImportJob.primaryKey : List String := ["languageId"]

/-- LanguageMemberRole declares `@@id([languageId, userId, role])`. -/
def LanguageMemberRole.primaryKey : List String := ["languageId", "userId", "role"]

/-- The primary-key value of a Gloss row, per `@@id([wordId, languageId])`. -/
def Gloss.key (r : Gloss) : String × String := (r.wordId, r.languageId)

/-- The primary-key value of a MachineGloss row. -/
def MachineGloss.key (r : MachineGloss) : String × String := (r.wordId, r.languageId)

/-- The primary-key value of a TranslatorNote row. -/
def TranslatorNote.key (r : TranslatorNote) : String × String := (r.wordId, r.languageId)

/-- The primary-key value of a Footnote row. -/
def Footnote.key (r : Footnote) : String × String := (r.wordId, r.languageId)

/-- The primary-key value of a LanguageImportJob row, per `@id` on
`languageId`. -/
def LanguageImportJob.key (r : LanguageImportJob) : String := r.languageId

/-- The primary-key value of a LanguageMemberRole row, per
`@@id([languageId, userId, role])`. -/
def LanguageMemberRole.key (r : LanguageMemberRole) : String × String × LanguageRole :=
  (r.languageId, r.userId, r.role)

/-! ## Persistence-layer primary-key semantics

A table is a list of rows. A table satisfies its primary-key constraint
when the declared key is injective over its rows; inserting a row whose
key already occurs is rejected by the database. -/

/-- A table satisfies its primary-key constraint: no two rows share the
declared key value. -/
abbrev pkValid {ρ κ : Type} (key : ρ → κ) (t : List ρ) : Prop :=
  (t.map key).Nodup

/-- Insert a row subject to the primary-key constraint: the insert is
rejected (returns `none`) when some existing row has the same key value,
as the database rejects a duplicate primary key. -/
def pkInsert {ρ κ : Type} [DecidableEq κ] (key : ρ → κ) (t : List ρ) (row : ρ) :
    Option (List ρ) :=
  if t.any fun r => decide (key r = key row) then none
  else some (t ++ [row])

theorem pkInsert_eq_none {ρ κ : Type} [DecidableEq κ] (key : ρ → κ) (t : List ρ)
    (row r : ρ) (hr : r ∈ t) (hk : key r = key row) : pkInsert key t row = none := by
  have h : (t.any fun r => decide (key r = key row)) = true :=
    List.any_eq_true.mpr ⟨r, hr, by simp [hk]⟩
  simp [pkInsert, h]

theorem pkInsert_eq_some {ρ κ : Type} [DecidableEq κ] (key : ρ → κ) (t : List ρ)
    (row : ρ) (hnew : ∀ r ∈ t, key r ≠ key row) :
    pkInsert key t row = some (t ++ [row]) := by
  have h : (t.any fun r => decide (key r = key row)) = false := by
    simp only [List.any_eq_false, decide_eq_true_eq]
    exact hnew
  simp [pkInsert, h]

theorem pkValid_append_singleton {ρ κ : Type} (key : ρ → κ) (t : List ρ)
    (row : ρ) (hv : pkValid key t) (hnew : ∀ r ∈ t, key r ≠ key row) :
    pkValid key (t ++ [row]) := by
  simp only [pkValid, List.map_append, List.map_cons, List.map_nil]
  rw [List.nodup_append]
  refine ⟨hv, List.nodup_singleton _, ?_⟩
  intro k hk hk'
  simp only [List.mem_singleton] at hk'
  obtain ⟨r, hr, rfl⟩ := List.mem_map.mp hk
  exact hnew r hr hk'

theorem pkValid_filter_le_one {ρ κ : Type} [DecidableEq κ] (key : ρ → κ) (k : κ) :
    ∀ t : List ρ, pkValid key t →
      (t.filter fun r => decide (key r = k)).length ≤ 1 := by
  intro t
  induction t with
  | nil => intro _; simp
  | cons a t ih =>
    intro h
    simp only [pkValid, List.map_cons, List.nodup_cons] at h
    obtain ⟨ha, ht⟩ := h
    by_cases hak : key a = k
    · have hrest : (t.filter fun r => decide (key r = k)) = [] := by
        rw [List.filter_eq_nil_iff]
        intro r hr
        simp only [decide_eq_true_eq]
        intro hrk
        exact ha (List.mem_map.mpr ⟨r, hr, by rw [hrk, hak]⟩)
      simp [List.filter_cons, hak, hrest]
    · have := ih ht
      simpa [List.filter_cons, hak] using this

/-! ## Referential actions on user deletion

Four relations to AuthUser declare `onDelete: Cascade` in the schema
(AuthSession.auth_user, AuthKey.auth_user, UserEmailVerification.user,
UserSystemRole.user). The remaining five user relations declare no
`onDelete` action, so Prisma applies its documented defaults: `Restrict`
for a required relation (LanguageMemberRole.user, TranslatorNote.author,
Footnote.author) and `SetNull` for an optional relation
(LanguageImportJob.user, GlossHistoryEntry.user). -/

/-- A referential action applied to rows referencing a deleted user. -/
inductive RefAction
  | Cascade
  | Restrict
  | SetNull
deriving DecidableEq

/-- The onDelete action of each user-referencing relation: declared
`Cascade` where the schema says so, otherwise Prisma's default (`Restrict`
for required relations, `SetNull` for optional ones). -/
def userRelationActions : List (String × RefAction) :=
  [("AuthSession.auth_user", .Cascade),
   ("AuthKey.auth_user", .Cascade),
   ("UserEmailVerification.user", .Cascade),
   ("UserSystemRole.user", .Cascade),
   ("LanguageImportJob.user", .SetNull),
   ("LanguageMemberRole.user", .Restrict),
   ("GlossHistoryEntry.user", .SetNull),
   ("TranslatorNote.author", .Restrict),
   ("Footnote.author", .Restrict)]

/-- The database state restricted to the tables that reference AuthUser. -/
structure DB where
  users : List AuthUser
  sessions : List AuthSession
  authKeys : List AuthKey
  emailVerifications : List UserEmailVerification
  systemRoles : List UserSystemRole
  importJobs : List LanguageImportJob
  memberRoles : List LanguageMemberRole
  glossHistory : List GlossHistoryEntry
  translatorNotes : List TranslatorNote
  footnotes : List Footnote
deriving DecidableEq

/-- Whether some row of a `Restrict` relation references user `u`:
member roles, translator notes and footnotes are required relations with
no declared `onDelete`, so such a row blocks the deletion. -/
def userDeleteRestricted (db : DB) (u : String) : Bool :=
  (db.memberRoles.any fun r => decide (r.userId = u)) ||
  (db.translatorNotes.any fun r => decide (r.authorId = u)) ||
  (db.footnotes.any fun r => decide (r.authorId = u))

/-- Delete user `u`, applying each relation's referential action: the
deletion is rejected (`none`) when a `Restrict` relation still references
`u`; otherwise rows of the four `Cascade` relations referencing `u` are
deleted, and `SetNull` relations (import jobs, gloss history) keep their
rows with `userId` cleared. -/
def deleteAuthUser (db : DB) (u : String) : Option DB :=
  if userDeleteRestricted db u then none
  else some
    { users := db.users.filter fun r => !decide (r.id = u)
      sessions := db.sessions.filter fun r => !decide (r.user_id = u)
      authKeys := db.authKeys.filter fun r => !decide (r.user_id = u)
      emailVerifications := db.emailVerifications.filter fun r => !decide (r.userId = u)
      systemRoles := db.systemRoles.filter fun r => !decide (r.userId = u)
      importJobs := db.importJobs.map fun r =>
        if r.userId = some u then { r with userId := none } else r
      memberRoles := db.memberRoles
      glossHistory := db.glossHistory.map fun r =>
        if r.userId = some u then { r with userId := none } else r
      translatorNotes := db.translatorNotes
      footnotes := db.footnotes }

/-! ## REST client embedding (packages/api-client/src/auth.ts)

Each client method is embedded as a pure function from its arguments to
the list of HTTP requests it performs through `this.client`. A request
body is a list of named fields; request-body types declared in the
`@translation/api-types` package (which is not part of this repository)
are modelled as runtime property lists. -/

/-- The value of one request-body field: a string, or a list of language
roles (the `roles` field of PATCH member bodies). -/
inductive FieldValue
  | str (s : String)
  | roleList (rs : List LanguageRole)
deriving DecidableEq

/-- An HTTP verb used by the client. -/
inductive HttpMethod
  | GET
  | POST
  | PATCH
  | DELETE
deriving DecidableEq

/-- One HTTP request performed through the ApiClient: verb, path, query
parameters, and the JSON body's named fields (when a body is sent). -/
structure Request where
  method : HttpMethod
  path : String
  query : List (String × String)
  body : Option (List (String × FieldValue))
deriving DecidableEq

/-- The field names of the first request's body, when the request list is
nonempty and carries a body. -/
def requestBodyFieldNames (rs : List Request) : Option (List String) :=
  (rs.head?.bind fun r => r.body).map fun b => b.map Prod.fst

/-- Modelled from the spec: `PostInviteRequestBody` is declared in the
`@translation/api-types` package, which is not in this repository. Its
fields read by `acceptInvite` are `token`, `name` and `password`;
`extraProps` models any further runtime properties the caller's object may
carry beyond the declared ones. -/
structure PostInviteRequestBody where
  token : String
  name : String
  password : String
  extraProps : List (String × FieldValue)
deriving DecidableEq

/-- Modelled from the spec: `PostLanguageRequestBody` is declared in
`@translation/api-types`, not in this repository; modelled as the runtime
property list of the caller's object. -/
def PostLanguageRequestBody : Type := List (String × FieldValue)

/-- Modelled from the spec: `PatchLanguageRequestBody` is declared in
`@translation/api-types`, not in this repository; modelled as the runtime
property list of the caller's object. -/
def PatchLanguageRequestBody : Type := List (String × FieldValue)

/-- Modelled from the spec: `StartLanguageImportStatusRequestBody` is
declared in `@translation/api-types`, not in this repository; modelled as
the runtime property list of the caller's object. -/
def StartLanguageImportStatusRequestBody : Type := List (String × FieldValue)

/-- Modelled from the spec: `PostLanguageMemberRequestBody` is declared in
`@translation/api-types`, not in this repository; modelled as the runtime
property list of the caller's object, which may carry properties beyond
the type's declared fields. -/
def PostLanguageMemberRequestBody : Type := List (String × FieldValue)

/-- Auth.session: `client.get({ path: '/api/auth/session' })`. -/
def Auth.session : List Request :=
  [{ method := .GET, path := "/api/auth/session", query := [], body := none }]

/-- Auth.login: destructures `{ email, password }` from its argument and
performs `client.post({ path: '/api/auth/login', body: { email, password } })`. -/
def Auth.login (email password : String) : List Request :=
  [{ method := .POST, path := "/api/auth/login", query := [],
     body := some [("email", .str email), ("password", .str password)] }]

/-- Auth.logout: `client.post({ path: '/api/auth/logout' })` with no body. -/
def Auth.logout : List Request :=
  [{ method := .POST, path := "/api/auth/logout", query := [], body := none }]

/-- Auth.getInvite: `client.get({ path: '/api/auth/invite', query: { token } })`. -/
def Auth.getInvite (token : String) : List Request :=
  [{ method := .GET, path := "/api/auth/invite", query := [("token", token)],
     body := none }]

/-- Auth.acceptInvite: destructures `{ token, name, password }` from its
argument (dropping any other runtime properties) and performs
`client.post({ path: '/api/auth/invite', body: { token, name, password } })`. -/
def Auth.acceptInvite (arg : PostInviteRequestBody) : List Request :=
  [{ method := .POST, path := "/api/auth/invite", query := [],
     body := some [("token", .str arg.token), ("name", .str arg.name),
                   ("password", .str arg.password)] }]

/-- Languages.findAll: `client.get({ path: '/api/languages' })`. -/
def Languages.findAll : List Request :=
  [{ method := .GET, path := "/api/languages", query := [], body := none }]

/-- Languages.create: `client.post({ path: '/api/languages', body: language })`,
forwarding the caller's object as the body. -/
def Languages.create (language : PostLanguageRequestBody) : List Request :=
  [{ method := .POST, path := "/api/languages", query := [], body := some language }]

/-- Languages.startImport: posts the caller's body object to
`/api/languages/${code}/import`. -/
def Languages.startImport (code : String)
    (body : StartLanguageImportStatusRequestBody) : List Request :=
  [{ method := .POST, path := "/api/languages/" ++ code ++ "/import",
     query := [], body := some body }]

/-- Languages.importStatus: `await client.get({ path: `/api/languages/${code}/import` })`,
discarding the awaited response. -/
def Languages.importStatus (code : String) : List Request :=
  [{ method := .GET, path := "/api/languages/" ++ code ++ "/import",
     query := [], body := none }]

/-- The value Languages.importStatus resolves with: the method's return
type is `Promise<void>`, so the awaited response body is discarded and the
caller receives nothing. -/
def Languages.importStatusResult (code : String)
    (responseBody : List (String × FieldValue)) : Unit := ()

/-- Languages.findByCode: `client.get({ path: `/api/languages/${code}` })`. -/
def Languages.findByCode (code : String) : List Request :=
  [{ method := .GET, path := "/api/languages/" ++ code, query := [], body := none }]

/-- Languages.update: patches the caller's body object to
`/api/languages/${code}`. -/
def Languages.update (code : String) (language : PatchLanguageRequestBody) :
    List Request :=
  [{ method := .PATCH, path := "/api/languages/" ++ code, query := [],
     body := some language }]

/-- Languages.findMembers: `client.get({ path: `/api/languages/${code}/members` })`. -/
def Languages.findMembers (code : String) : List Request :=
  [{ method := .GET, path := "/api/languages/" ++ code ++ "/members",
     query := [], body := none }]

/-- Languages.inviteMember: `client.post({ path: `/api/languages/${code}/members`,
body: request })`, forwarding the caller's object as the body unchanged. -/
def Languages.inviteMember (code : String)
    (request : PostLanguageMemberRequestBody) : List Request :=
  [{ method := .POST, path := "/api/languages/" ++ code ++ "/members",
     query := [], body := some request }]

/-- Languages.updateMember: builds `body = { roles }` and patches it to
`/api/languages/${code}/members/${userId}`. -/
def Languages.updateMember (code userId : String) (roles : List LanguageRole) :
    List Request :=
  [{ method := .PATCH, path := "/api/languages/" ++ code ++ "/members/" ++ userId,
     query := [], body := some [("roles", .roleList roles)] }]

/-- Languages.removeMember: issues a DELETE to
`/api/languages/${code}/members/${userId}` with no body. -/
def Languages.removeMember (code userId : String) : List Request :=
  [{ method := .DELETE, path := "/api/languages/" ++ code ++ "/members/" ++ userId,
     query := [], body := none }]

/-! ## LoginView embedding (packages/web/src/features/users/LoginView.tsx) -/

/-- Modelled from the spec: `ApiClientError` is defined in the api-client
package's client module, which is not in this repository; per the spec,
client errors carry the HTTP status code. `stringForm` models the JS
string interpolation `${error}` of the error object. -/
structure ApiClientError where
  status : Nat
  stringForm : String
deriving DecidableEq

/-- A value thrown by the awaited login call: either an `ApiClientError`,
or any other thrown value, carried with its JS string interpolation. -/
inductive ThrownError
  | apiError (e : ApiClientError)
  | otherError (stringForm : String)
deriving DecidableEq

/-- The JS template-literal interpolation of a thrown value. -/
def ThrownError.interp : ThrownError → String
  | .apiError e => e.stringForm
  | .otherError s => s

/-- The condition of the catch branch in LoginView.onSubmit:
`error instanceof ApiClientError && error.status === 401`. -/
def isApiClientError401 : ThrownError → Bool
  | .apiError e => e.status == 401
  | .otherError _ => false

/-- An observable effect of running LoginView.onSubmit: the login request
made through the api client, the auth refresh, the navigation, or a flash
error message. -/
inductive Effect
  | loginRequest (email password : String)
  | refreshAuth
  | navigate (path : String)
  | flashError (message : String)
deriving DecidableEq

/-- The i18next key passed to `t` for the invalid-credentials message. -/
def invalidAuthKey : String := "users:errors.invalid_auth"

/-- LoginView.onSubmit: awaits `apiClient.auth.login({ email, password })`;
on success calls `refreshAuth()` and `navigate('/')`; on a thrown error,
flashes the localized invalid-credentials message when the error is an
`ApiClientError` with status 401, and otherwise flashes the error's string
interpolation. `t` is the translation function from `useTranslation`;
`loginResult` is the outcome of the awaited login call (`none` = resolved,
`some e` = rejected with `e`). -/
def LoginView.onSubmit (t : String → String) (email password : String)
    (loginResult : Option ThrownError) : List Effect :=
  match loginResult with
  | none => [.loginRequest email password, .refreshAuth, .navigate "/"]
  | some error =>
      [.loginRequest email password,
       if isApiClientError401 error then .flashError (t invalidAuthKey)
       else .flashError error.interp]

/-! ## Claims -/

/-- C1: For every word `w` and language `l`, each of the tables Gloss,
MachineGloss, TranslatorNote and Footnote admits at most one row keyed by
`(wordId, languageId) = (w, l)`, and inserting a second row with the same
`(wordId, languageId)` into any of these tables is rejected at the
persistence layer, because each of these models declares
`(wordId, languageId)` as its composite primary key. -/
theorem glossTables_unique_per_word_language (w l : String)
    (gt : List Gloss) (mt : List MachineGloss)
    (nt : List TranslatorNote) (ft : List Footnote)
    (g g' : Gloss) (m m' : MachineGloss)
    (n n' : TranslatorNote) (f f' : Footnote)
    (hgv : pkValid Gloss.key gt) (hmv : pkValid MachineGloss.key mt)
    (hnv : pkValid TranslatorNote.key nt) (hfv : pkValid Footnote.key ft)
    (hg : g ∈ gt) (hm : m ∈ mt) (hn : n ∈ nt) (hf : f ∈ ft)
    (hgk : g.key = g'.key) (hmk : m.key = m'.key)
    (hnk : n.key = n'.key) (hfk : f.key = f'.key) :
    Gloss.primaryKey = ["wordId", "languageId"] ∧
    MachineGloss.primaryKey = ["wordId", "languageId"] ∧
    TranslatorNote.primaryKey = ["wordId", "languageId"] ∧
    Footnote.primaryKey = ["wordId", "languageId"] ∧
    (gt.filter fun r => decide (r.key = (w, l))).length ≤ 1 ∧
    (mt.filter fun r => decide (r.key = (w, l))).length ≤ 1 ∧
    (nt.filter fun r => decide (r.key = (w, l))).length ≤ 1 ∧
    (ft.filter fun r => decide (r.key = (w, l))).length ≤ 1 ∧
    pkInsert Gloss.key gt g' = none ∧
    pkInsert MachineGloss.key mt m' = none ∧
    pkInsert TranslatorNote.key nt n' = none ∧
    pkInsert Footnote.key ft f' = none :=
  ⟨rfl, rfl, rfl, rfl,
   pkValid_filter_le_one Gloss.key (w, l) gt hgv,
   pkValid_filter_le_one MachineGloss.key (w, l) mt hmv,
   pkValid_filter_le_one TranslatorNote.key (w, l) nt hnv,
   pkValid_filter_le_one Footnote.key (w, l) ft hfv,
   pkInsert_eq_none Gloss.key gt g' g hg hgk,
   pkInsert_eq_none MachineGloss.key mt m' m hm hmk,
   pkInsert_eq_none TranslatorNote.key nt n' n hn hnk,
   pkInsert_eq_none Footnote.key ft f' f hf hfk⟩

/-- Witness for C1 at concrete singleton tables: a second row sharing
`(wordId, languageId) = ("w1", "l1")` is rejected in each table. -/
theorem glossTables_unique_per_word_language_witness :
    Gloss.primaryKey = ["wordId", "languageId"] ∧
    MachineGloss.primaryKey = ["wordId", "languageId"] ∧
    TranslatorNote.primaryKey = ["wordId", "languageId"] ∧
    Footnote.primaryKey = ["wordId", "languageId"] ∧
    (([⟨"w1", "l1", none, GlossState.UNAPPROVED⟩] : List Gloss).filter
      fun r => decide (r.key = ("w1", "l1"))).length ≤ 1 ∧
    (([⟨"w1", "l1", none⟩] : List MachineGloss).filter
      fun r => decide (r.key = ("w1", "l1"))).length ≤ 1 ∧
    (([⟨"w1", "l1", "u1", 0, "note"⟩] : List TranslatorNote).filter
      fun r => decide (r.key = ("w1", "l1"))).length ≤ 1 ∧
    (([⟨"w1", "l1", "u1", 0, "fn"⟩] : List Footnote).filter
      fun r => decide (r.key = ("w1", "l1"))).length ≤ 1 ∧
    pkInsert Gloss.key [⟨"w1", "l1", none, GlossState.UNAPPROVED⟩]
      ⟨"w1", "l1", some "hello", GlossState.APPROVED⟩ = none ∧
    pkInsert MachineGloss.key [⟨"w1", "l1", none⟩] ⟨"w1", "l1", some "mg"⟩ = none ∧
    pkInsert TranslatorNote.key [⟨"w1", "l1", "u1", 0, "note"⟩]
      ⟨"w1", "l1", "u2", 1, "other"⟩ = none ∧
    pkInsert Footnote.key [⟨"w1", "l1", "u1", 0, "fn"⟩]
      ⟨"w1", "l1", "u2", 1, "other"⟩ = none :=
  glossTables_unique_per_word_language "w1" "l1"
    [⟨"w1", "l1", none, GlossState.UNAPPROVED⟩] [⟨"w1", "l1", none⟩]
    [⟨"w1", "l1", "u1", 0, "note"⟩] [⟨"w1", "l1", "u1", 0, "fn"⟩]
    ⟨"w1", "l1", none, GlossState.UNAPPROVED⟩
    ⟨"w1", "l1", some "hello", GlossState.APPROVED⟩
    ⟨"w1", "l1", none⟩ ⟨"w1", "l1", some "mg"⟩
    ⟨"w1", "l1", "u1", 0, "note"⟩ ⟨"w1", "l1", "u2", 1, "other"⟩
    ⟨"w1", "l1", "u1", 0, "fn"⟩ ⟨"w1", "l1", "u2", 1, "other"⟩
    (by decide) (by decide) (by decide) (by decide)
    (by decide) (by decide) (by decide) (by decide)
    rfl rfl rfl rfl

/-- A database holding one user who has one language member role and no
other dependent rows. -/
def dbOneRole : DB :=
  ⟨[⟨"u1", none, EmailStatus.UNVERIFIED⟩], [], [], [], [], [],
   [⟨"u1", "lang1", LanguageRole.TRANSLATOR⟩], [], [], []⟩

/-- A database holding one user who started one import job and has no
other dependent rows. -/
def dbOneImportJob : DB :=
  ⟨[⟨"u1", none, EmailStatus.UNVERIFIED⟩], [], [], [], [],
   [⟨"lang1", some "u1", 0, none, none⟩], [], [], [], []⟩

/-- The state produced by deleting user "u1" from `dbOneImportJob`: the
user row is gone, but the import-job row survives with `userId` cleared. -/
def dbOneImportJobAfter : DB :=
  ⟨[], [], [], [], [], [⟨"lang1", none, 0, none, none⟩], [], [], [], []⟩

/-- C2 counterexample: user deletion does not cascade to every dependent
row. Deleting "u1" from `dbOneRole` is rejected outright (the required
LanguageMemberRole relation declares no cascade, so it restricts the
deletion), and deleting "u1" from `dbOneImportJob` succeeds but leaves the
dependent LanguageImportJob row in place (only its `userId` is cleared),
contradicting the claim that every dependent row — member roles and import
jobs included — is removed by cascade. -/
theorem deleteAuthUser_cascade_counterexample :
    deleteAuthUser dbOneRole "u1" = none ∧
    deleteAuthUser dbOneImportJob "u1" = some dbOneImportJobAfter ∧
    dbOneImportJobAfter.importJobs.length = 1 := by
  refine ⟨by decide, by decide, by decide⟩

/-- C2 amended: deleting an AuthUser cascades only to the four relations
declaring `onDelete: Cascade` (sessions, auth keys, email verifications,
system roles); member roles, translator notes and footnotes block the
deletion while any references the user (default Restrict); import jobs and
gloss history survive with `userId` cleared (default SetNull). After a
successful deletion no remaining row references the user, but the
Restrict-related and SetNull-related tables keep all their rows. -/
theorem deleteAuthUser_referential_semantics (db db' : DB) (u : String)
    (h : deleteAuthUser db u = some db') :
    userDeleteRestricted db u = false ∧
    (∀ r ∈ db'.sessions, r.user_id ≠ u) ∧
    (∀ r ∈ db'.authKeys, r.user_id ≠ u) ∧
    (∀ r ∈ db'.emailVerifications, r.userId ≠ u) ∧
    (∀ r ∈ db'.systemRoles, r.userId ≠ u) ∧
    (∀ r ∈ db'.importJobs, r.userId ≠ some u) ∧
    (∀ r ∈ db'.glossHistory, r.userId ≠ some u) ∧
    (∀ r ∈ db'.memberRoles, r.userId ≠ u) ∧
    (∀ r ∈ db'.translatorNotes, r.authorId ≠ u) ∧
    (∀ r ∈ db'.footnotes, r.authorId ≠ u) ∧
    db'.importJobs.length = db.importJobs.length ∧
    db'.glossHistory.length = db.glossHistory.length ∧
    db'.memberRoles = db.memberRoles ∧
    db'.translatorNotes = db.translatorNotes ∧
    db'.footnotes = db.footnotes := by
  have hb : userDeleteRestricted db u = false := by
    by_contra hb'
    rw [Bool.not_eq_false] at hb'
    simp [deleteAuthUser, hb'] at h
  have hb' := hb
  simp only [userDeleteRestricted, Bool.or_eq_false_iff, List.any_eq_false,
    decide_eq_true_eq] at hb'
  obtain ⟨⟨hbm, hbn⟩, hbf⟩ := hb'
  simp only [deleteAuthUser, hb, Bool.false_eq_true, if_false,
    Option.some.injEq] at h
  subst h
  refine ⟨hb, ?_, ?_, ?_, ?_, ?_, ?_, hbm, hbn, hbf, ?_, ?_, rfl, rfl, rfl⟩
  · intro r hr
    simp only [List.mem_filter, Bool.not_eq_true', decide_eq_false_iff_not] at hr
    exact hr.2
  · intro r hr
    simp only [List.mem_filter, Bool.not_eq_true', decide_eq_false_iff_not] at hr
    exact hr.2
  · intro r hr
    simp only [List.mem_filter, Bool.not_eq_true', decide_eq_false_iff_not] at hr
    exact hr.2
  · intro r hr
    simp only [List.mem_filter, Bool.not_eq_true', decide_eq_false_iff_not] at hr
    exact hr.2
  · intro r hr
    obtain ⟨s, hs, rfl⟩ := List.mem_map.mp hr
    by_cases hsu : s.userId = some u
    · simp [hsu]
    · simp [hsu]
  · intro r hr
    obtain ⟨s, hs, rfl⟩ := List.mem_map.mp hr
    by_cases hsu : s.userId = some u
    · simp [hsu]
    · simp [hsu]
  · simp
  · simp

/-- Witness for the amended C2 at the concrete database `dbOneImportJob`:
deleting "u1" succeeds, the import-job row survives with `userId`
cleared, and no remaining row references "u1". -/
theorem deleteAuthUser_referential_semantics_witness :
    userDeleteRestricted dbOneImportJob "u1" = false ∧
    (∀ r ∈ dbOneImportJobAfter.sessions, r.user_id ≠ "u1") ∧
    (∀ r ∈ dbOneImportJobAfter.authKeys, r.user_id ≠ "u1") ∧
    (∀ r ∈ dbOneImportJobAfter.emailVerifications, r.userId ≠ "u1") ∧
    (∀ r ∈ dbOneImportJobAfter.systemRoles, r.userId ≠ "u1") ∧
    (∀ r ∈ dbOneImportJobAfter.importJobs, r.userId ≠ some "u1") ∧
    (∀ r ∈ dbOneImportJobAfter.glossHistory, r.userId ≠ some "u1") ∧
    (∀ r ∈ dbOneImportJobAfter.memberRoles, r.userId ≠ "u1") ∧
    (∀ r ∈ dbOneImportJobAfter.translatorNotes, r.authorId ≠ "u1") ∧
    (∀ r ∈ dbOneImportJobAfter.footnotes, r.authorId ≠ "u1") ∧
    dbOneImportJobAfter.importJobs.length = dbOneImportJob.importJobs.length ∧
    dbOneImportJobAfter.glossHistory.length = dbOneImportJob.glossHistory.length ∧
    dbOneImportJobAfter.memberRoles = dbOneImportJob.memberRoles ∧
    dbOneImportJobAfter.translatorNotes = dbOneImportJob.translatorNotes ∧
    dbOneImportJobAfter.footnotes = dbOneImportJob.footnotes :=
  deleteAuthUser_referential_semantics dbOneImportJob dbOneImportJobAfter "u1" (by decide)

/-- C3: In LoginView's submit handler, an error thrown by the login call
that is an ApiClientError with status 401 flashes the localized
invalid-credentials message `t "users:errors.invalid_auth"`; any other
error flashes its string interpolation. -/
theorem loginView_onSubmit_error_handling (t : String → String)
    (email password : String) (e : ApiClientError) (err : ThrownError)
    (h401 : e.status = 401) (hother : isApiClientError401 err = false) :
    LoginView.onSubmit t email password (some (.apiError e)) =
      [.loginRequest email password, .flashError (t invalidAuthKey)] ∧
    LoginView.onSubmit t email password (some err) =
      [.loginRequest email password, .flashError err.interp] := by
  constructor
  · simp [LoginView.onSubmit, isApiClientError401, h401]
  · simp [LoginView.onSubmit, hother]

/-- Witness for C3: a 401 ApiClientError flashes the translated
invalid-credentials message, and a non-ApiClientError flashes its own
string interpolation. -/
theorem loginView_onSubmit_error_handling_witness :
    (⟨401, "Unauthorized"⟩ : ApiClientError).status = 401 ∧
    isApiClientError401 (ThrownError.otherError "TypeError: network down") = false ∧
    LoginView.onSubmit (fun s => s) "a@b.c" "pw"
        (some (.apiError ⟨401, "Unauthorized"⟩)) =
      [.loginRequest "a@b.c" "pw", .flashError ((fun s => s) invalidAuthKey)] ∧
    LoginView.onSubmit (fun s => s) "a@b.c" "pw"
        (some (.otherError "TypeError: network down")) =
      [.loginRequest "a@b.c" "pw",
       .flashError (ThrownError.otherError "TypeError: network down").interp] :=
  ⟨rfl, rfl,
   loginView_onSubmit_error_handling (fun s => s) "a@b.c" "pw"
     ⟨401, "Unauthorized"⟩ (.otherError "TypeError: network down") rfl rfl⟩

/-- C4: Auth.login performs exactly one HTTP request, a POST to
/api/auth/login with body exactly the fields email and password. -/
theorem auth_login_single_post (email password : String) :
    (Auth.login email password).length = 1 ∧
    (Auth.login email password).head? = some
      { method := .POST, path := "/api/auth/login", query := [],
        body := some [("email", .str email), ("password", .str password)] } :=
  ⟨rfl, rfl⟩

/-- A PostLanguageMemberRequestBody runtime object carrying exactly the
properties email and roles. -/
def inviteRequestA : PostLanguageMemberRequestBody :=
  [("email", FieldValue.str "member@example.com"),
   ("roles", FieldValue.roleList [LanguageRole.TRANSLATOR])]

/-- The same object with one additional runtime property. -/
def inviteRequestB : PostLanguageMemberRequestBody :=
  [("email", FieldValue.str "member@example.com"),
   ("roles", FieldValue.roleList [LanguageRole.TRANSLATOR]),
   ("extraProp", FieldValue.str "x")]

/-- C5 counterexample: Languages.inviteMember forwards the caller's object
verbatim as the POST body, so the body's field set varies with whatever
extra properties the argument carries — here the body of the second call
carries the extra field "extraProp", so the two calls send different
bodies, refuting the claim that the body holds exactly the fields required
by PostLanguageMemberRequestBody regardless of other argument properties. -/
theorem inviteMember_forwards_extra_properties :
    requestBodyFieldNames (Languages.inviteMember "en" inviteRequestA) =
      some ["email", "roles"] ∧
    requestBodyFieldNames (Languages.inviteMember "en" inviteRequestB) =
      some ["email", "roles", "extraProp"] ∧
    Languages.inviteMember "en" inviteRequestA ≠
      Languages.inviteMember "en" inviteRequestB :=
  ⟨rfl, rfl, by decide⟩

/-- C5 amended: Auth.acceptInvite destructures its argument, so its POST
body holds exactly the fields token, name and password whatever extra
properties the argument carries; Languages.inviteMember instead forwards
the caller's argument object as the body unchanged, so its body holds
exactly the argument's own runtime properties, extras included. -/
theorem acceptInvite_exact_fields_inviteMember_forwards
    (arg : PostInviteRequestBody) (code : String)
    (request : PostLanguageMemberRequestBody) :
    requestBodyFieldNames (Auth.acceptInvite arg) =
      some ["token", "name", "password"] ∧
    ((Languages.inviteMember code request).head?.bind fun r => r.body) =
      some request :=
  ⟨rfl, rfl⟩

/-- C6: languageId is the primary key of LanguageImportJob, so for every
language a valid import-job table holds at most one row, and inserting a
second job row for the same language is rejected. -/
theorem languageImportJob_unique_per_language (l : String)
    (t : List LanguageImportJob) (job job' : LanguageImportJob)
    (hv : pkValid LanguageImportJob.key t) (hj : job ∈ t)
    (hk : job.key = job'.key) :
    LanguageImportJob.primaryKey = ["languageId"] ∧
    (t.filter fun r => decide (r.key = l)).length ≤ 1 ∧
    pkInsert LanguageImportJob.key t job' = none :=
  ⟨rfl, pkValid_filter_le_one LanguageImportJob.key l t hv,
   pkInsert_eq_none LanguageImportJob.key t job' job hj hk⟩

/-- Witness for C6: with one pending import job for "lang1", a second job
row for "lang1" is rejected. -/
theorem languageImportJob_unique_per_language_witness :
    LanguageImportJob.primaryKey = ["languageId"] ∧
    (([⟨"lang1", none, 0, none, none⟩] : List LanguageImportJob).filter
      fun r => decide (r.key = "lang1")).length ≤ 1 ∧
    pkInsert LanguageImportJob.key [⟨"lang1", none, 0, none, none⟩]
      ⟨"lang1", some "u2", 5, none, none⟩ = none :=
  languageImportJob_unique_per_language "lang1"
    [⟨"lang1", none, 0, none, none⟩] ⟨"lang1", none, 0, none, none⟩
    ⟨"lang1", some "u2", 5, none, none⟩ (by decide) (by decide) rfl

/-- C7: the composite primary key of LanguageMemberRole is
(languageId, userId, role), so a duplicate row with the same triple is
rejected while a row for the same user and language with a distinct role
is accepted and the table stays valid — multiple roles per user/language
pair coexist. -/
theorem languageMemberRole_composite_key (t : List LanguageMemberRole)
    (dup fresh r : LanguageMemberRole)
    (hv : pkValid LanguageMemberRole.key t) (hr : r ∈ t)
    (hdup : r.key = dup.key) (hfresh : ∀ s ∈ t, s.key ≠ fresh.key) :
    LanguageMemberRole.primaryKey = ["languageId", "userId", "role"] ∧
    pkInsert LanguageMemberRole.key t dup = none ∧
    pkInsert LanguageMemberRole.key t fresh = some (t ++ [fresh]) ∧
    pkValid LanguageMemberRole.key (t ++ [fresh]) :=
  ⟨rfl, pkInsert_eq_none LanguageMemberRole.key t dup r hr hdup,
   pkInsert_eq_some LanguageMemberRole.key t fresh hfresh,
   pkValid_append_singleton LanguageMemberRole.key t fresh hv hfresh⟩

/-- Witness for C7: with user "u1" holding ADMIN for "lang1", a second
ADMIN grant is rejected, while a TRANSLATOR grant for the same user and
language is accepted, leaving a valid table with both roles. -/
theorem languageMemberRole_composite_key_witness :
    LanguageMemberRole.primaryKey = ["languageId", "userId", "role"] ∧
    pkInsert LanguageMemberRole.key [⟨"u1", "lang1", LanguageRole.ADMIN⟩]
      ⟨"u1", "lang1", LanguageRole.ADMIN⟩ = none ∧
    pkInsert LanguageMemberRole.key [⟨"u1", "lang1", LanguageRole.ADMIN⟩]
        ⟨"u1", "lang1", LanguageRole.TRANSLATOR⟩ =
      some ([⟨"u1", "lang1", LanguageRole.ADMIN⟩] ++
        [⟨"u1", "lang1", LanguageRole.TRANSLATOR⟩]) ∧
    pkValid LanguageMemberRole.key ([⟨"u1", "lang1", LanguageRole.ADMIN⟩] ++
      [⟨"u1", "lang1", LanguageRole.TRANSLATOR⟩]) :=
  languageMemberRole_composite_key [⟨"u1", "lang1", LanguageRole.ADMIN⟩]
    ⟨"u1", "lang1", LanguageRole.ADMIN⟩ ⟨"u1", "lang1", LanguageRole.TRANSLATOR⟩
    ⟨"u1", "lang1", LanguageRole.ADMIN⟩ (by decide) (by decide) rfl (by decide)

/-- C8: every Languages client method performs exactly one HTTP request to
its corresponding endpoint and verb: findAll GET and create POST on
/api/languages; findByCode GET and update PATCH on /api/languages/:code;
startImport POST and importStatus GET on /api/languages/:code/import;
findMembers GET and inviteMember POST on /api/languages/:code/members;
updateMember PATCH and removeMember DELETE on
/api/languages/:code/members/:userId. -/
theorem languages_client_endpoint_mapping (code userId : String)
    (language : PostLanguageRequestBody) (patchBody : PatchLanguageRequestBody)
    (importBody : StartLanguageImportStatusRequestBody)
    (request : PostLanguageMemberRequestBody) (roles : List LanguageRole) :
    Languages.findAll.length = 1 ∧
    Languages.findAll.head? = some
      { method := .GET, path := "/api/languages", query := [], body := none } ∧
    (Languages.create language).length = 1 ∧
    (Languages.create language).head? = some
      { method := .POST, path := "/api/languages", query := [],
        body := some language } ∧
    (Languages.findByCode code).length = 1 ∧
    (Languages.findByCode code).head? = some
      { method := .GET, path := "/api/languages/" ++ code, query := [],
        body := none } ∧
    (Languages.update code patchBody).length = 1 ∧
    (Languages.update code patchBody).head? = some
      { method := .PATCH, path := "/api/languages/" ++ code, query := [],
        body := some patchBody } ∧
    (Languages.startImport code importBody).length = 1 ∧
    (Languages.startImport code importBody).head? = some
      { method := .POST, path := "/api/languages/" ++ code ++ "/import",
        query := [], body := some importBody } ∧
    (Languages.importStatus code).length = 1 ∧
    (Languages.importStatus code).head? = some
      { method := .GET, path := "/api/languages/" ++ code ++ "/import",
        query := [], body := none } ∧
    (Languages.findMembers code).length = 1 ∧
    (Languages.findMembers code).head? = some
      { method := .GET, path := "/api/languages/" ++ code ++ "/members",
        query := [], body := none } ∧
    (Languages.inviteMember code request).length = 1 ∧
    (Languages.inviteMember code request).head? = some
      { method := .POST, path := "/api/languages/" ++ code ++ "/members",
        query := [], body := some request } ∧
    (Languages.updateMember code userId roles).length = 1 ∧
    (Languages.updateMember code userId roles).head? = some
      { method := .PATCH,
        path := "/api/languages/" ++ code ++ "/members/" ++ userId,
        query := [], body := some [("roles", .roleList roles)] } ∧
    (Languages.removeMember code userId).length = 1 ∧
    (Languages.removeMember code userId).head? = some
      { method := .DELETE,
        path := "/api/languages/" ++ code ++ "/members/" ++ userId,
        query := [], body := none } :=
  ⟨rfl, rfl, rfl, rfl, rfl, rfl, rfl, rfl, rfl, rfl, rfl, rfl, rfl, rfl,
   rfl, rfl, rfl, rfl, rfl, rfl⟩

/-- C9: Languages.importStatus issues a single GET to
/api/languages/:code/import and resolves to Unit whatever the server's
response body is, so a caller can never observe the import job's status
through this method. -/
theorem importStatus_discards_response (code : String)
    (b1 b2 : List (String × FieldValue)) :
    (Languages.importStatus code).length = 1 ∧
    (Languages.importStatus code).head? = some
      { method := .GET, path := "/api/languages/" ++ code ++ "/import",
        query := [], body := none } ∧
    Languages.importStatusResult code b1 = Languages.importStatusResult code b2 :=
  ⟨rfl, rfl, rfl⟩

/-- Create a Gloss row supplying the key columns and optionally a text,
without specifying a state: per the schema, `gloss` is nullable and
`state` defaults to UNAPPROVED (`@default(UNAPPROVED)`). -/
def Gloss.create (wordId languageId : String) (gloss : Option String) : Gloss :=
  ⟨wordId, languageId, gloss, GlossState.UNAPPROVED⟩

/-- C10: a Gloss row created without specifying a state has the schema
default state UNAPPROVED, the gloss text field is nullable, and for every
(wordId, languageId) a row carrying an approval state but no gloss text is
accepted by the persistence layer. -/
theorem gloss_default_state_and_nullable_text (w l : String)
    (g : Option String) (st : GlossState) :
    (Gloss.create w l g).state = GlossState.UNAPPROVED ∧
    (Gloss.create w l none).gloss = none ∧
    pkInsert Gloss.key [] ⟨w, l, none, st⟩ = some [⟨w, l, none, st⟩] ∧
    pkValid Gloss.key [⟨w, l, none, st⟩] :=
  ⟨rfl, rfl, rfl, List.nodup_singleton (Gloss.key ⟨w, l, none, st⟩)⟩
